import Mathlib

/-
Formal model of the GEOLib D-Stability internal document structure
(geolib/models/dstability/internal.py) and the D-Foundations soil schema
(geolib/models/dfoundations/internal_soil.py), as a shallow embedding:
pydantic models become Lean structures, Optional fields become Option,
floats become Rat, mutating methods become state-passing functions, and
raising methods return Except.
-/

namespace GEOLib

/-- geolib.geometry.Point. Modelled from the spec: the geometry module is
not under src; `add_head_line` / `add_reference_line` read only `p.x` and
`p.z` from it, so it is a pair of coordinates. -/
structure Point where
  x : Rat
  z : Rat
deriving DecidableEq

structure PersistablePoint where
  X : Option Rat := none
  Z : Option Rat := none
deriving DecidableEq

structure PersistableHeadLine where
  Id : Option String := none
  Label : Option String := none
  Notes : Option String := none
  Points : Option (List (Option PersistablePoint)) := none
deriving DecidableEq

structure PersistableReferenceLine where
  BottomHeadLineId : Option String := none
  Id : Option String := none
  Label : Option String := none
  Notes : Option String := none
  Points : Option (List (Option PersistablePoint)) := none
  TopHeadLineId : Option String := none
deriving DecidableEq

/-- waternets/waternet_x.json. -/
structure Waternet where
  Id : Option String := none
  ContentVersion : Option String := none
  PhreaticLineId : Option String := none
  HeadLines : List PersistableHeadLine := []
  ReferenceLines : List PersistableReferenceLine := []
  UnitWeightWater : Option Rat := some 9.81
deriving DecidableEq

/-- `head_line_id in {head_line.Id for head_line in self.HeadLines}`. -/
def Waternet.has_head_line_id (w : Waternet) (head_line_id : String) : Bool :=
  w.HeadLines.any (fun head_line => head_line.Id == some head_line_id)

/-- `Waternet.get_head_line`: first head line with the given id, else a
lookup error naming the id. -/
def Waternet.get_head_line (w : Waternet) (head_line_id : String) :
    Except String PersistableHeadLine :=
  match w.HeadLines.find? (fun head_line => head_line.Id == some head_line_id) with
  | some head_line => Except.ok head_line
  | none => Except.error ("No headline with id " ++ head_line_id ++ " in model.")

/-- `Waternet.add_head_line`: appends a new head line built from the
arguments; when `is_phreatic_line` it also sets `PhreaticLineId`.
Returns the updated waternet together with the new record. -/
def Waternet.add_head_line (w : Waternet) (head_line_id : String) (label : String)
    (notes : String) (points : List Point) ( is_phreatic_line : Bool) :
    Waternet × PersistableHeadLine :=
  let head_line : PersistableHeadLine :=
    { Id := some head_line_id, Label := some label, Notes := some notes,
      Points := some (points.map (fun p => some { X := some p.x, Z := some p.z })) }
  let w1 := { w with HeadLines := w.HeadLines ++ [head_line] }
  let w2 := if is_phreatic_line then { w1 with PhreaticLineId := head_line.Id } else w1
  (w2, head_line)

/-- `Waternet.add_reference_line`: builds the reference line locally, then
checks the bottom and the top head-line id (raising before any mutation of
the waternet), and only then appends it.  Mirrors the source order:
construct, check bottom, check top, assign ids, append. -/
def Waternet.add_reference_line (w : Waternet) (reference_line_id : String)
    (label : String) (notes : String) (points : List Point)
    (bottom_head_line_id : String) (top_head_line_id : String) :
    Except String (Waternet × PersistableReferenceLine) :=
  let reference_line : PersistableReferenceLine :=
    { Id := some reference_line_id, Label := some label, Notes := some notes,
      Points := some (points.map (fun p => some { X := some p.x, Z := some p.z })) }
  if ¬ w.has_head_line_id bottom_head_line_id then
    Except.error ("Unknown headline id " ++ bottom_head_line_id ++ " for bottom_head_line_id")
  else if ¬ w.has_head_line_id top_head_line_id then
    Except.error ("Unknown headline id " ++ top_head_line_id ++ " for top_head_line_id")
  else
    let reference_line :=
      { reference_line with
          BottomHeadLineId := some bottom_head_line_id,
          TopHeadLineId := some top_head_line_id }
    Except.ok ({ w with ReferenceLines := w.ReferenceLines ++ [reference_line] },
               reference_line)

/-- stages/stage_x.json. -/
structure Stage where
  CalculationSettingsId : Option String := none
  ContentVersion : Option String := none
  DecorationsId : Option String := none
  GeometryId : Option String := none
  Id : Option String := none
  Label : Option String := none
  LoadsId : Option String := none
  Notes : Option String := none
  ReinforcementsId : Option String := none
  ResultId : Option String := none
  SoilLayersId : Option String := none
  StateCorrelationsId : Option String := none
  StateId : Option String := none
  WaternetCreatorSettingsId : Option String := none
  WaternetId : Option String := none
deriving DecidableEq

structure PersistableStochasticParameter where
  IsProbabilistic : Bool := false
  Mean : Rat := 1.0
  StandardDeviation : Rat := 0.0
deriving DecidableEq

inductive ShearStrengthModelTypePhreaticLevel where
  | C_PHI
  | NONE
  | SU
deriving DecidableEq

/-- soils.json entry; `confloat(ge=0)` fields are carried as plain `Rat`
values (the construction-time bound is `0 ≤ _`, no upper bound). -/
structure PersistableSoil where
  Code : String := ""
  Cohesion : Rat := 0.0
  CohesionAndFrictionAngleCorrelated : Bool := false
  CohesionStochasticParameter : PersistableStochasticParameter := {}
  Dilatancy : Rat := 0.0
  DilatancyStochasticParameter : PersistableStochasticParameter := {}
  FrictionAngle : Rat := 0.0
  FrictionAngleStochasticParameter : PersistableStochasticParameter := {}
  Id : String := ""
  IsProbabilistic : Bool := false
  Name : String := ""
  ShearStrengthModelTypeAbovePhreaticLevel : ShearStrengthModelTypePhreaticLevel :=
    ShearStrengthModelTypePhreaticLevel.C_PHI
  ShearStrengthModelTypeBelowPhreaticLevel : ShearStrengthModelTypePhreaticLevel :=
    ShearStrengthModelTypePhreaticLevel.SU
  ShearStrengthRatio : Rat := 0.0
  ShearStrengthRatioAndShearStrengthExponentCorrelated : Bool := false
  ShearStrengthRatioStochasticParameter : PersistableStochasticParameter := {}
  StrengthIncreaseExponent : Rat := 1.0
  StrengthIncreaseExponentStochasticParameter : PersistableStochasticParameter := {}
  VolumetricWeightAbovePhreaticLevel : Rat := 0.0
  VolumetricWeightBelowPhreaticLevel : Rat := 0.0
deriving DecidableEq

/-- The ten reference soils baked into `SoilCollection.Soils`. -/
def defaultSoils : List PersistableSoil :=
  [ { Id := "2", Name := "Embankment new", Code := "H_Aa_ht_new",
      Cohesion := 7.0, FrictionAngle := 30.0, Dilatancy := 0.0,
      ShearStrengthRatio := 0.26, StrengthIncreaseExponent := 0.9,
      VolumetricWeightAbovePhreaticLevel := 19.3,
      VolumetricWeightBelowPhreaticLevel := 19.3 },
    { Id := "3", Name := "Embankment old", Code := "H_Aa_ht_old",
      Cohesion := 7.0, FrictionAngle := 30.0, Dilatancy := 0.0,
      ShearStrengthRatio := 0.26, StrengthIncreaseExponent := 0.9,
      VolumetricWeightAbovePhreaticLevel := 18.0,
      VolumetricWeightBelowPhreaticLevel := 18.0 },
    { Id := "4", Name := "Clay, shallow", Code := "H_Rk_k_shallow",
      Cohesion := 0.0, FrictionAngle := 0.0, Dilatancy := 0.0,
      ShearStrengthRatio := 0.23,
      ShearStrengthModelTypeAbovePhreaticLevel := ShearStrengthModelTypePhreaticLevel.SU,
      StrengthIncreaseExponent := 0.9,
      VolumetricWeightAbovePhreaticLevel := 14.8,
      VolumetricWeightBelowPhreaticLevel := 14.8 },
    { Id := "5", Name := "Clay, deep", Code := "H_Rk_k_deep",
      Cohesion := 0.0, FrictionAngle := 0.0, Dilatancy := 0.0,
      ShearStrengthRatio := 0.23,
      ShearStrengthModelTypeAbovePhreaticLevel := ShearStrengthModelTypePhreaticLevel.SU,
      StrengthIncreaseExponent := 0.9,
      VolumetricWeightAbovePhreaticLevel := 15.6,
      VolumetricWeightBelowPhreaticLevel := 15.6 },
    { Id := "6", Name := "Organic clay", Code := "H_Rk_ko",
      Cohesion := 0.0, FrictionAngle := 0.0, Dilatancy := 0.0,
      ShearStrengthRatio := 0.24,
      ShearStrengthModelTypeAbovePhreaticLevel := ShearStrengthModelTypePhreaticLevel.SU,
      StrengthIncreaseExponent := 0.85,
      VolumetricWeightAbovePhreaticLevel := 13.9,
      VolumetricWeightBelowPhreaticLevel := 13.9 },
    { Id := "7", Name := "Peat, shallow", Code := "H_vhv_v",
      Cohesion := 0.0, FrictionAngle := 0.0, Dilatancy := 0.0,
      ShearStrengthRatio := 0.3,
      ShearStrengthModelTypeAbovePhreaticLevel := ShearStrengthModelTypePhreaticLevel.SU,
      StrengthIncreaseExponent := 0.9,
      VolumetricWeightAbovePhreaticLevel := 10.1,
      VolumetricWeightBelowPhreaticLevel := 10.1 },
    { Id := "8", Name := "Peat, deep", Code := "H_vbv_v",
      Cohesion := 0.0, FrictionAngle := 0.0, Dilatancy := 0.0,
      ShearStrengthRatio := 0.27,
      ShearStrengthModelTypeAbovePhreaticLevel := ShearStrengthModelTypePhreaticLevel.SU,
      StrengthIncreaseExponent := 0.9,
      VolumetricWeightAbovePhreaticLevel := 11.0,
      VolumetricWeightBelowPhreaticLevel := 11.0 },
    { Id := "9", Name := "Sand", Code := "Sand",
      Cohesion := 0.0, FrictionAngle := 30.0, Dilatancy := 0.0,
      ShearStrengthRatio := 0.0,
      ShearStrengthModelTypeBelowPhreaticLevel := ShearStrengthModelTypePhreaticLevel.C_PHI,
      StrengthIncreaseExponent := 0.0,
      VolumetricWeightAbovePhreaticLevel := 18.0,
      VolumetricWeightBelowPhreaticLevel := 20.0 },
    { Id := "10", Name := "Clay with silt", Code := "P_Rk_k&s",
      Cohesion := 0.0, FrictionAngle := 0.0, Dilatancy := 0.0,
      ShearStrengthRatio := 0.22,
      ShearStrengthModelTypeAbovePhreaticLevel := ShearStrengthModelTypePhreaticLevel.SU,
      StrengthIncreaseExponent := 0.9,
      VolumetricWeightAbovePhreaticLevel := 18.0,
      VolumetricWeightBelowPhreaticLevel := 18.0 },
    { Id := "11", Name := "Sand with clay", Code := "H_Ro_z&k",
      Cohesion := 0.0, FrictionAngle := 0.0, Dilatancy := 0.0,
      ShearStrengthRatio := 0.22,
      ShearStrengthModelTypeAbovePhreaticLevel := ShearStrengthModelTypePhreaticLevel.SU,
      StrengthIncreaseExponent := 0.9,
      VolumetricWeightAbovePhreaticLevel := 18.0,
      VolumetricWeightBelowPhreaticLevel := 18.0 } ]

/-- soils.json. -/
structure SoilCollection where
  ContentVersion : Option String := none
  Soils : List PersistableSoil := defaultSoils
deriving DecidableEq

/-- `code in {s.Code for s in self.Soils}`. -/
def SoilCollection.has_soilcode (sc : SoilCollection) (code : String) : Bool :=
  sc.Soils.any (fun s => s.Code == code)

/-- geolib.soils.Soil, the engineering-facing value object passed to
`add_soil`. Modelled from the spec: geolib/soils/soil.py is not under src;
per the spec the engineering-facing API uses the lower-case-with-underscores
counterparts of the capitalized persisted field names, every field optional
so a caller can supply only the parameters it computed. -/
structure Soil where
  code : Option String := none
  cohesion : Option Rat := none
  cohesion_and_friction_angle_correlated : Option Bool := none
  cohesion_stochastic_parameter : Option PersistableStochasticParameter := none
  dilatancy : Option Rat := none
  dilatancy_stochastic_parameter : Option PersistableStochasticParameter := none
  friction_angle : Option Rat := none
  friction_angle_stochastic_parameter : Option PersistableStochasticParameter := none
  id : Option String := none
  is_probabilistic : Option Bool := none
  name : Option String := none
  shear_strength_model_type_above_phreatic_level :
    Option ShearStrengthModelTypePhreaticLevel := none
  shear_strength_model_type_below_phreatic_level :
    Option ShearStrengthModelTypePhreaticLevel := none
  shear_strength_ratio : Option Rat := none
  shear_strength_ratio_and_shear_strength_exponent_correlated : Option Bool := none
  shear_strength_ratio_stochastic_parameter : Option PersistableStochasticParameter := none
  strength_increase_exponent : Option Rat := none
  strength_increase_exponent_stochastic_parameter :
    Option PersistableStochasticParameter := none
  volumetric_weight_above_phreatic_level : Option Rat := none
  volumetric_weight_below_phreatic_level : Option Rat := none
deriving DecidableEq

/-- `SoilCollection.add_soil`: starts from a default `PersistableSoil` and
overrides exactly those persisted fields whose snake-cased counterpart on
the incoming soil is non-null (the source iterates `dict(soil)` and matches
names through `snake_to_camel`; rendered here as the explicit field-by-field
merge over the one-to-one name correspondence).  Appends the merged record
and returns it with the updated collection. -/
def SoilCollection.add_soil (sc : SoilCollection) (soil : Soil) :
    SoilCollection × PersistableSoil :=
  let d : PersistableSoil := {}
  let ps : PersistableSoil :=
    { Code := soil.code.getD d.Code,
      Cohesion := soil.cohesion.getD d.Cohesion,
      CohesionAndFrictionAngleCorrelated :=
        soil.cohesion_and_friction_angle_correlated.getD d.CohesionAndFrictionAngleCorrelated,
      CohesionStochasticParameter :=
        soil.cohesion_stochastic_parameter.getD d.CohesionStochasticParameter,
      Dilatancy := soil.dilatancy.getD d.Dilatancy,
      DilatancyStochasticParameter :=
        soil.dilatancy_stochastic_parameter.getD d.DilatancyStochasticParameter,
      FrictionAngle := soil.friction_angle.getD d.FrictionAngle,
      FrictionAngleStochasticParameter :=
        soil.friction_angle_stochastic_parameter.getD d.FrictionAngleStochasticParameter,
      Id := soil.id.getD d.Id,
      IsProbabilistic := soil.is_probabilistic.getD d.IsProbabilistic,
      Name := soil.name.getD d.Name,
      ShearStrengthModelTypeAbovePhreaticLevel :=
        soil.shear_strength_model_type_above_phreatic_level.getD
          d.ShearStrengthModelTypeAbovePhreaticLevel,
      ShearStrengthModelTypeBelowPhreaticLevel :=
        soil.shear_strength_model_type_below_phreatic_level.getD
          d.ShearStrengthModelTypeBelowPhreaticLevel,
      ShearStrengthRatio := soil.shear_strength_ratio.getD d.ShearStrengthRatio,
      ShearStrengthRatioAndShearStrengthExponentCorrelated :=
        soil.shear_strength_ratio_and_shear_strength_exponent_correlated.getD
          d.ShearStrengthRatioAndShearStrengthExponentCorrelated,
      ShearStrengthRatioStochasticParameter :=
        soil.shear_strength_ratio_stochastic_parameter.getD
          d.ShearStrengthRatioStochasticParameter,
      StrengthIncreaseExponent :=
        soil.strength_increase_exponent.getD d.StrengthIncreaseExponent,
      StrengthIncreaseExponentStochasticParameter :=
        soil.strength_increase_exponent_stochastic_parameter.getD
          d.StrengthIncreaseExponentStochasticParameter,
      VolumetricWeightAbovePhreaticLevel :=
        soil.volumetric_weight_above_phreatic_level.getD
          d.VolumetricWeightAbovePhreaticLevel,
      VolumetricWeightBelowPhreaticLevel :=
        soil.volumetric_weight_below_phreatic_level.getD
          d.VolumetricWeightBelowPhreaticLevel }
  ({ sc with Soils := sc.Soils ++ [ps] }, ps)

/-- `SoilCollection.get_soil`: finds the first persisted soil with the given
code and exports every persisted field back to the snake-cased, all-set
engineering-facing object; a lookup error names the missing code. -/
def SoilCollection.get_soil (sc : SoilCollection) (code : String) :
    Except String Soil :=
  match sc.Soils.find? (fun p => p.Code == code) with
  | some p =>
    Except.ok
      { code := some p.Code,
        cohesion := some p.Cohesion,
        cohesion_and_friction_angle_correlated :=
          some p.CohesionAndFrictionAngleCorrelated,
        cohesion_stochastic_parameter := some p.CohesionStochasticParameter,
        dilatancy := some p.Dilatancy,
        dilatancy_stochastic_parameter := some p.DilatancyStochasticParameter,
        friction_angle := some p.FrictionAngle,
        friction_angle_stochastic_parameter :=
          some p.FrictionAngleStochasticParameter,
        id := some p.Id,
        is_probabilistic := some p.IsProbabilistic,
        name := some p.Name,
        shear_strength_model_type_above_phreatic_level :=
          some p.ShearStrengthModelTypeAbovePhreaticLevel,
        shear_strength_model_type_below_phreatic_level :=
          some p.ShearStrengthModelTypeBelowPhreaticLevel,
        shear_strength_ratio := some p.ShearStrengthRatio,
        shear_strength_ratio_and_shear_strength_exponent_correlated :=
          some p.ShearStrengthRatioAndShearStrengthExponentCorrelated,
        shear_strength_ratio_stochastic_parameter :=
          some p.ShearStrengthRatioStochasticParameter,
        strength_increase_exponent := some p.StrengthIncreaseExponent,
        strength_increase_exponent_stochastic_parameter :=
          some p.StrengthIncreaseExponentStochasticParameter,
        volumetric_weight_above_phreatic_level :=
          some p.VolumetricWeightAbovePhreaticLevel,
        volumetric_weight_below_phreatic_level :=
          some p.VolumetricWeightBelowPhreaticLevel }
  | none => Except.error ("Soil code " ++ code ++ " not found in the SoilCollection")

structure PersistableDitchCharacteristics where
  DitchBottomEmbankmentSide : Option Rat := none
  DitchBottomLandSide : Option Rat := none
  DitchEmbankmentSide : Option Rat := none
  DitchLandSide : Option Rat := none
deriving DecidableEq

structure PersistableEmbankmentCharacteristics where
  EmbankmentToeLandSide : Option Rat := none
  EmbankmentToeWaterSide : Option Rat := none
  EmbankmentTopLandSide : Option Rat := none
  EmbankmentTopWaterSide : Option Rat := none
  ShoulderBaseLandSide : Option Rat := none
deriving DecidableEq

inductive EmbankmentSoilScenario where
  | CLAY_EMBANKMENT_ON_CLAY
  | CLAY_EMBANKMENT_ON_SAND
  | SAND_EMBANKMENT_ON_CLAY
  | SAND_EMBANKMENT_ON_SAND
deriving DecidableEq

/-- waternetcreatorsettings/waternetcreatorsettings_x.json. -/
structure WaternetCreatorSettings where
  AdjustForUplift : Option Bool := none
  AquiferInsideAquitardLayerId : Option String := none
  AquiferLayerId : Option String := none
  AquiferLayerInsideAquitardLeakageLengthInwards : Option Rat := none
  AquiferLayerInsideAquitardLeakageLengthOutwards : Option Rat := none
  AquitardHeadLandSide : Option Rat := none
  AquitardHeadWaterSide : Option Rat := none
  ContentVersion : Option String := none
  DitchCharacteristics : Option PersistableDitchCharacteristics := none
  DrainageConstruction : Option PersistablePoint := none
  EmbankmentCharacteristics : Option PersistableEmbankmentCharacteristics := none
  EmbankmentSoilScenario : Option EmbankmentSoilScenario := none
  Id : Option String := none
  InitialLevelEmbankmentTopLandSide : Option Rat := none
  InitialLevelEmbankmentTopWaterSide : Option Rat := none
  IntrusionLength : Option Rat := none
  IsAquiferLayerInsideAquitard : Option Bool := none
  IsDitchPresent : Option Bool := none
  IsDrainageConstructionPresent : Option Bool := none
  MeanWaterLevel : Option Rat := none
  NormativeWaterLevel : Option Rat := none
  OffsetEmbankmentToeLandSide : Option Rat := none
  OffsetEmbankmentTopLandSide : Option Rat := none
  OffsetEmbankmentTopWaterSide : Option Rat := none
  OffsetShoulderBaseLandSide : Option Rat := none
  PleistoceneLeakageLengthInwards : Option Rat := none
  PleistoceneLeakageLengthOutwards : Option Rat := none
  UseDefaultOffsets : Option Bool := none
  WaterLevelHinterland : Option Rat := none
deriving DecidableEq

inductive StateType where
  | OCR
  | POP
  | YIELD_STRESS
deriving DecidableEq

structure PersistableStress where
  Ocr : Option Rat := none
  Pop : Option Rat := none
  PopStochasticParameter : Option PersistableStochasticParameter := none
  StateType : Option StateType := none
  YieldStress : Option Rat := none
deriving DecidableEq

structure PersistableStateLinePoint where
  Above : Option PersistableStress := none
  Below : Option PersistableStress := none
  Id : Option String := none
  IsAboveAndBelowCorrelated : Option Bool := none
  IsProbabilistic : Option Bool := none
  Label : Option String := none
  X : Option Rat := none
deriving DecidableEq

structure PersistableStateLine where
  Points : Option (List (Option PersistablePoint)) := none
  Values : Option (List (Option PersistableStateLinePoint)) := none
deriving DecidableEq

structure PersistableStatePoint where
  Id : Option String := none
  IsProbabilistic : Option Bool := none
  Label : Option String := none
  LayerId : Option String := none
  Point : Option PersistablePoint := none
  Stress : Option PersistableStress := none
deriving DecidableEq

/-- states/states_x.json. -/
structure State where
  ContentVersion : Option String := none
  Id : Option String := none
  StateLines : Option (List (Option PersistableStateLine)) := none
  StatePoints : Option (List (Option PersistableStatePoint)) := none
deriving DecidableEq

structure PersistableStateCorrelation where
  CorrelatedStateIds : Option (List (Option String)) := none
  IsFullyCorrelated : Option Bool := none
deriving DecidableEq

/-- statecorrelations/statecorrelations_1.json. -/
structure StateCorrelation where
  ContentVersion : Option String := none
  Id : Option String := none
  StateCorrelations : Option (List (Option PersistableStateCorrelation)) := none
deriving DecidableEq

structure PersistableSoilLayer where
  LayerId : Option String := none
  SoilId : Option String := none
deriving DecidableEq

/-- soillayers/soillayers_x.json. -/
structure SoilLayerCollection where
  ContentVersion : Option String := none
  Id : Option String := none
  SoilLayers : Option (List (Option PersistableSoilLayer)) := some []
deriving DecidableEq

structure PersistableSoilCorrelation where
  CorrelatedSoilIds : Option (List (Option String)) := none
deriving DecidableEq

/-- soilcorrelations.json. -/
structure SoilCorrelation where
  ContentVersion : Option String := none
  SoilCorrelations : Option (List (Option PersistableSoilCorrelation)) := none
deriving DecidableEq

structure PersistableForbiddenLine where
  End : Option PersistablePoint := none
  Label : Option String := none
  Start : Option PersistablePoint := none
deriving DecidableEq

structure PersistableGeotextile where
  End : Option PersistablePoint := none
  Label : Option String := none
  ReductionArea : Option Rat := none
  Start : Option PersistablePoint := none
  TensileStrength : Option Rat := none
deriving DecidableEq

structure PersistableStressAtDistance where
  Distance : Option Rat := none
  Stress : Option Rat := none
deriving DecidableEq

structure PersistableNail where
  BendingStiffness : Option Rat := none
  CriticalAngle : Option Rat := none
  Diameter : Option Rat := none
  Direction : Option Rat := none
  GroutDiameter : Option Rat := none
  HorizontalSpacing : Option Rat := none
  Label : Option String := none
  LateralStresses : Option (List (Option PersistableStressAtDistance)) := none
  Length : Option Rat := none
  Location : Option PersistablePoint := none
  MaxPullForce : Option Rat := none
  PlasticMoment : Option Rat := none
  ShearStresses : Option (List (Option PersistableStressAtDistance)) := none
  UseFacing : Option Bool := none
  UseLateralStress : Option Bool := none
  UseShearStress : Option Bool := none
deriving DecidableEq

/-- reinforcements/reinforcements_x.json. -/
structure Reinforcements where
  Id : Option String := none
  ContentVersion : Option String := none
  ForbiddenLines : List PersistableForbiddenLine := []
  Geotextiles : List PersistableGeotextile := []
  Nails : List PersistableNail := []
deriving DecidableEq

/-- datetime.date values appearing in projectinfo.json. -/
structure CalendarDate where
  year : Nat
  month : Nat
  day : Nat
deriving DecidableEq

/-- projectinfo.json.  The source defaults three date fields to the date at
class-definition time and the remarks to the running library version; both
are environment inputs, so the default record is parametrized by them (see
`defaultProjectInfo`). -/
structure ProjectInfo where
  Analyst : Option String := none
  ContentVersion : Option String := none
  Created : Option CalendarDate := none
  CrossSection : Option String := none
  Date : Option CalendarDate := none
  IsDataValidated : Option Bool := some false
  LastModified : Option CalendarDate := none
  LastModifier : Option String := some "GEOLib"
  Path : Option String := none
  Project : Option String := none
  Remarks : Option String := none
deriving DecidableEq

/-- `ProjectInfo()` evaluated with `today` as the current date and `version`
as the running GEOLib version. -/
def defaultProjectInfo (today : CalendarDate) (version : String) : ProjectInfo :=
  { Created := some today,
    Date := some today,
    LastModified := some today,
    Remarks := some ("Created with GEOLib " ++ version) }

structure PersistableBondStress where
  Sigma : Option Rat := none
  Tau : Option Rat := none
deriving DecidableEq

structure PersistableNailPropertiesForSoil where
  BondStresses : Option (List (Option PersistableBondStress)) := none
  CompressionRatio : Option Rat := none
  RheologicalCoefficient : Option Rat := none
  SoilId : Option String := none
deriving DecidableEq

/-- nailpropertiesforsoils.json. -/
structure NailProperties where
  ContentVersion : Option String := none
  NailPropertiesForSoils : Option (List (Option PersistableNailPropertiesForSoil)) := none
deriving DecidableEq

structure PersistableConsolidation where
  Degree : Option Rat := none
  LayerId : Option String := none
deriving DecidableEq

structure PersistableEarthquake where
  Consolidations : Option (List (Option PersistableConsolidation)) := none
  FreeWaterFactor : Option Rat := none
  HorizontalFactor : Option Rat := none
  IsEnabled : Option Bool := none
  VerticalFactor : Option Rat := none
deriving DecidableEq

structure PersistableLayerLoad where
  Consolidations : Option (List (Option PersistableConsolidation)) := none
  LayerId : Option String := none
deriving DecidableEq

structure PersistableLineLoad where
  Angle : Option Rat := none
  Consolidations : Option (List (Option PersistableConsolidation)) := none
  Label : Option String := none
  Location : Option PersistablePoint := none
  Magnitude : Option Rat := none
  Spread : Option Rat := none
deriving DecidableEq

structure PersistableTree where
  Force : Option Rat := none
  Label : Option String := none
  Location : Option PersistablePoint := none
  RootZoneWidth : Option Rat := none
  Spread : Option Rat := none
deriving DecidableEq

structure PersistableUniformLoad where
  Consolidations : Option (List (Option PersistableConsolidation)) := none
  End : Option Rat := none
  Label : Option String := none
  Magnitude : Option Rat := none
  Spread : Option Rat := none
  Start : Option Rat := none
deriving DecidableEq

/-- loads/loads_x.json. -/
structure Loads where
  ContentVersion : Option String := none
  Earthquake : Option PersistableEarthquake := none
  Id : Option String := none
  LayerLoads : Option (List (Option PersistableLayerLoad)) := none
  LineLoads : Option (List (Option PersistableLineLoad)) := none
  Trees : Option (List (Option PersistableTree)) := none
  UniformLoads : Option (List (Option PersistableUniformLoad)) := none
deriving DecidableEq

structure PersistableLayer where
  Id : Option String := none
  Label : Option String := none
  Notes : Option String := none
  Points : Option (List (Option PersistablePoint)) := none
deriving DecidableEq

/-- geometries/geometry_x.json. -/
structure Geometry where
  ContentVersion : Option String := none
  Id : Option String := none
  Layers : Option (List (Option PersistableLayer)) := none
deriving DecidableEq

structure PersistableBerm where
  AddedLayerId : Option String := none
  Label : Option String := none
  Points : Option (List (Option PersistablePoint)) := none
deriving DecidableEq

structure PersistableExcavation where
  Label : Option String := none
  Points : Option (List (Option PersistablePoint)) := none
deriving DecidableEq

/-- decorations/decorations_x.json. -/
structure Decorations where
  Berms : Option (List (Option PersistableBerm)) := none
  ContentVersion : Option String := none
  Excavations : Option (List (Option PersistableExcavation)) := none
  Id : Option String := none
deriving DecidableEq

inductive AnalysisType where
  | BISHOP
  | BISHOP_BRUTE_FORCE
  | SPENCER
  | SPENCER_GENETIC
  | UPLIFT_VAN
  | UPLIFT_VAN_PARTICLE_SWARM
deriving DecidableEq

structure PersistableCircle where
  Center : Option PersistablePoint := none
  Radius : Option Rat := none
deriving DecidableEq

structure PersistableBishopSettings where
  Circle : Option PersistableCircle := none
deriving DecidableEq

structure PersistableGridEnhancements where
  ExtrapolateSearchSpace : Option Bool := none
deriving DecidableEq

structure NullablePersistablePoint where
  X : Option Rat := none
  Z : Option Rat := none
deriving DecidableEq

structure PersistableSearchGrid where
  BottomLeft : Option NullablePersistablePoint := none
  NumberOfPointsInX : Option Int := none
  NumberOfPointsInZ : Option Int := none
  Space : Option Rat := none
deriving DecidableEq

structure PersistableSlipPlaneConstraints where
  IsSizeConstraintsEnabled : Option Bool := none
  IsZoneAConstraintsEnabled : Option Bool := none
  IsZoneBConstraintsEnabled : Option Bool := none
  MinimumSlipPlaneDepth : Option Rat := none
  MinimumSlipPlaneLength : Option Rat := none
  WidthZoneA : Option Rat := none
  WidthZoneB : Option Rat := none
  XLeftZoneA : Option Rat := none
  XLeftZoneB : Option Rat := none
deriving DecidableEq

structure PersistableTangentLines where
  BottomTangentLineZ : Option Rat := none
  NumberOfTangentLines : Option Int := none
  Space : Option Rat := none
deriving DecidableEq

structure PersistableBishopBruteForceSettings where
  GridEnhancements : Option PersistableGridEnhancements := none
  SearchGrid : Option PersistableSearchGrid := none
  SlipPlaneConstraints : Option PersistableSlipPlaneConstraints := none
  TangentLines : Option PersistableTangentLines := none
deriving DecidableEq

inductive CalculationType where
  | DESIGN
  | DETERMINISTIC
  | MEAN
  | PROBABILISTIC
deriving DecidableEq

structure PersistableSpencerSettings where
  SlipPlane : Option (List (Option PersistablePoint)) := none
deriving DecidableEq

inductive OptionsType where
  | DEFAULT
  | THOROUGH
deriving DecidableEq

structure PersistableGeneticSlipPlaneConstraints where
  IsEnabled : Option Bool := none
  MinimumAngleBetweenSlices : Option Rat := none
  MinimumThrustLinePercentageInsideSlices : Option Rat := none
deriving DecidableEq

structure PersistableSpencerGeneticSettings where
  OptionsType : Option OptionsType := none
  SlipPlaneA : Option (List (Option PersistablePoint)) := none
  SlipPlaneB : Option (List (Option PersistablePoint)) := none
  SlipPlaneConstraints : Option PersistableGeneticSlipPlaneConstraints := none
deriving DecidableEq

structure PersistableTwoCirclesOnTangentLine where
  FirstCircleCenter : Option NullablePersistablePoint := none
  FirstCircleRadius : Option Rat := none
  SecondCircleCenter : Option NullablePersistablePoint := none
deriving DecidableEq

structure PersistableUpliftVanSettings where
  SlipPlane : Option PersistableTwoCirclesOnTangentLine := none
deriving DecidableEq

structure PersistableSearchArea where
  Height : Option Rat := none
  TopLeft : Option NullablePersistablePoint := none
  Width : Option Rat := none
deriving DecidableEq

structure PersistableTangentArea where
  Height : Option Rat := none
  TopZ : Option Rat := none
deriving DecidableEq

structure PersistableUpliftVanParticleSwarmSettings where
  OptionsType : Option OptionsType := none
  SearchAreaA : Option PersistableSearchArea := none
  SearchAreaB : Option PersistableSearchArea := none
  SlipPlaneConstraints : Option PersistableSlipPlaneConstraints := none
  TangentArea : Option PersistableTangentArea := none
deriving DecidableEq

/-- calculationsettings/calculationsettings_x.json. -/
structure CalculationSettings where
  AnalysisType : Option AnalysisType := none
  Bishop : Option PersistableBishopSettings := none
  BishopBruteForce : Option PersistableBishopBruteForceSettings := none
  CalculationType : Option CalculationType := none
  ContentVersion : Option String := none
  Id : Option String := none
  ModelFactorMean : Option Rat := none
  ModelFactorStandardDeviation : Option Rat := none
  Spencer : Option PersistableSpencerSettings := none
  SpencerGenetic : Option PersistableSpencerGeneticSettings := none
  UpliftVan : Option PersistableUpliftVanSettings := none
  UpliftVanParticleSwarm : Option PersistableUpliftVanParticleSwarmSettings := none
deriving DecidableEq

structure BishopSlipCircleResult where
  x : Rat
  z : Rat
  radius : Rat
deriving DecidableEq

structure UpliftVanSlipCircleResult where
  x_left : Rat
  z_left : Rat
  x_right : Rat
  z_right : Rat
  z_tangent : Rat
deriving DecidableEq

structure SpencerSlipPlaneResult where
  slipplane : List Point
deriving DecidableEq

/-- Rendering of an optional id inside an f-string (None prints as None). -/
def pyStr : Option String → String
  | none => "None"
  | some s => s

structure PersistableSlice where
  ArcLength : Option Rat := none
  BottomAngle : Option Rat := none
  BottomLeft : Option PersistablePoint := none
  BottomRight : Option PersistablePoint := none
  CohesionInput : Option Rat := none
  CohesionOutput : Option Rat := none
  DegreeOfConsolidationLoadPorePressure : Option Rat := none
  DegreeOfConsolidationPorePressure : Option Rat := none
  DilatancyInput : Option Rat := none
  DilatancyOutput : Option Rat := none
  EffectiveStress : Option Rat := none
  HorizontalPorePressure : Option Rat := none
  HorizontalSoilQuakeStress : Option Rat := none
  HydrostaticPorePressure : Option Rat := none
  Label : Option String := none
  LoadStress : Option Rat := none
  MInput : Option Rat := none
  NormalStress : Option Rat := none
  Ocr : Option Rat := none
  PhiInput : Option Rat := none
  PhiOutput : Option Rat := none
  PiezometricPorePressure : Option Rat := none
  Pop : Option Rat := none
  ShearStress : Option Rat := none
  SInput : Option Rat := none
  SuOutput : Option Rat := none
  SurfacePorePressure : Option Rat := none
  TopAngle : Option Rat := none
  TopLeft : Option PersistablePoint := none
  TopRight : Option PersistablePoint := none
  TotalPorePressure : Option Rat := none
  TotalStress : Option Rat := none
  UpliftFactor : Option Rat := none
  VerticalPorePressure : Option Rat := none
  VerticalSoilQuakeStress : Option Rat := none
  WaterQuakeStress : Option Rat := none
  Weight : Option Rat := none
  Width : Option Rat := none
  YieldStress : Option Rat := none
deriving DecidableEq

structure PersistableSpencerSlice where
  ArcLength : Option Rat := none
  BottomAngle : Option Rat := none
  BottomLeft : Option PersistablePoint := none
  BottomRight : Option PersistablePoint := none
  CohesionInput : Option Rat := none
  CohesionOutput : Option Rat := none
  DegreeOfConsolidationLoadPorePressure : Option Rat := none
  DegreeOfConsolidationPorePressure : Option Rat := none
  DilatancyInput : Option Rat := none
  DilatancyOutput : Option Rat := none
  EffectiveStress : Option Rat := none
  HorizontalPorePressure : Option Rat := none
  HorizontalSoilQuakeStress : Option Rat := none
  HydrostaticPorePressure : Option Rat := none
  Label : Option String := none
  LeftForce : Option Rat := none
  LeftForceAngle : Option Rat := none
  LeftForceY : Option Rat := none
  LoadStress : Option Rat := none
  MInput : Option Rat := none
  NormalStress : Option Rat := none
  Ocr : Option Rat := none
  PhiInput : Option Rat := none
  PhiOutput : Option Rat := none
  PiezometricPorePressure : Option Rat := none
  Pop : Option Rat := none
  RightForce : Option Rat := none
  RightForceAngle : Option Rat := none
  RightForceY : Option Rat := none
  ShearStress : Option Rat := none
  SInput : Option Rat := none
  SuOutput : Option Rat := none
  SurfacePorePressure : Option Rat := none
  TopAngle : Option Rat := none
  TopLeft : Option PersistablePoint := none
  TopRight : Option PersistablePoint := none
  TotalPorePressure : Option Rat := none
  TotalStress : Option Rat := none
  UpliftFactor : Option Rat := none
  VerticalPorePressure : Option Rat := none
  VerticalSoilQuakeStress : Option Rat := none
  WaterQuakeStress : Option Rat := none
  Weight : Option Rat := none
  Width : Option Rat := none
  YieldStress : Option Rat := none
deriving DecidableEq

structure PersistableSoilContribution where
  Alpha : Option Rat := none
  Property : Option String := none
  SoilId : Option String := none
  Value : Option Rat := none
deriving DecidableEq

structure PersistableStageContribution where
  Alpha : Option Rat := none
  Property : Option String := none
  StageId : Option String := none
  Value : Option Rat := none
deriving DecidableEq

structure PersistableStateLinePointContribution where
  Alpha : Option Rat := none
  Property : Option String := none
  StateLinePointId : Option String := none
  Value : Option Rat := none
deriving DecidableEq

structure PersistableStatePointContribution where
  Alpha : Option Rat := none
  Property : Option String := none
  StatePointId : Option String := none
  Value : Option Rat := none
deriving DecidableEq

/-- results/bishopreliability. -/
structure BishopReliabilityResult where
  Circle : Option PersistableCircle := none
  Converged : Option Bool := none
  FailureProbability : Option Rat := none
  Id : Option String := none
  ReliabilityIndex : Option Rat := none
  SoilContributions : Option (List (Option PersistableSoilContribution)) := none
  StageContributions : Option (List (Option PersistableStageContribution)) := none
  StateLinePointContributions :
    Option (List (Option PersistableStateLinePointContribution)) := none
  StatePointContributions :
    Option (List (Option PersistableStatePointContribution)) := none
deriving DecidableEq

/-- results/bishop. -/
structure BishopResult where
  Circle : Option PersistableCircle := none
  FactorOfSafety : Option Rat := none
  Id : Option String := none
  Points : Option (List (Option PersistablePoint)) := none
  Slices : Option (List (Option PersistableSlice)) := none
deriving DecidableEq

/-- `BishopResult.get_slipcircle_output`: reads `Circle.Center.X`,
`Circle.Center.Z` and `Circle.Radius`; an unset `Circle` or `Center` raises
AttributeError and an unset coordinate or radius makes the
`BishopSlipCircleResult` construction raise ValidationError, both caught and
re-raised as the condensation ValueError naming the class and the id. -/
def BishopResult.get_slipcircle_output (r : BishopResult) :
    Except String BishopSlipCircleResult :=
  match r.Circle with
  | some circ =>
    match circ.Center with
    | some center =>
      match center.X, center.Z, circ.Radius with
      | some x, some z, some radius => Except.ok { x := x, z := z, radius := radius }
      | _, _, _ =>
        Except.error ("Slipcircle not available for BishopResult with id " ++ pyStr r.Id)
    | none =>
      Except.error ("Slipcircle not available for BishopResult with id " ++ pyStr r.Id)
  | none =>
    Except.error ("Slipcircle not available for BishopResult with id " ++ pyStr r.Id)

/-- results/bishopbruteforce. -/
structure BishopBruteForceResult where
  Circle : Option PersistableCircle := none
  FactorOfSafety : Option Rat := none
  Id : Option String := none
  Points : Option (List (Option PersistablePoint)) := none
  Slices : Option (List (Option PersistableSlice)) := none
deriving DecidableEq

/-- results/spencergeneticalgorithm. -/
structure SpencerGeneticAlgorithmResult where
  FactorOfSafety : Option Rat := none
  Id : Option String := none
  Points : Option (List (Option PersistablePoint)) := none
  Slices : Option (List (Option PersistableSpencerSlice)) := none
  SlipPlane : Option (List (Option PersistablePoint)) := none
deriving DecidableEq

/-- results/spencerreliability. -/
structure SpencerReliabilityResult where
  Converged : Option Bool := none
  FailureProbability : Option Rat := none
  Id : Option String := none
  ReliabilityIndex : Option Rat := none
  SlipPlane : Option (List (Option PersistablePoint)) := none
  SoilContributions : Option (List (Option PersistableSoilContribution)) := none
  StageContributions : Option (List (Option PersistableStageContribution)) := none
  StateLinePointContributions :
    Option (List (Option PersistableStateLinePointContribution)) := none
  StatePointContributions :
    Option (List (Option PersistableStatePointContribution)) := none
deriving DecidableEq

/-- results/spencer. -/
structure SpencerResult where
  FactorOfSafety : Option Rat := none
  Id : Option String := none
  Points : Option (List (Option PersistablePoint)) := none
  Slices : Option (List (Option PersistableSpencerSlice)) := none
  SlipPlane : Option (List (Option PersistablePoint)) := none
deriving DecidableEq

/-- results/upliftvanparticleswarm. -/
structure UpliftVanParticleSwarmResult where
  FactorOfSafety : Option Rat := none
  Id : Option String := none
  LeftCenter : Option PersistablePoint := none
  Points : Option (List (Option PersistablePoint)) := none
  RightCenter : Option PersistablePoint := none
  Slices : Option (List (Option PersistableSlice)) := none
  TangentLine : Option Rat := none
deriving DecidableEq

/-- results/upliftvanreliability. -/
structure UpliftVanReliabilityResult where
  Converged : Option Bool := none
  FailureProbability : Option Rat := none
  Id : Option String := none
  LeftCenter : Option PersistablePoint := none
  ReliabilityIndex : Option Rat := none
  RightCenter : Option PersistablePoint := none
  SoilContributions : Option (List (Option PersistableSoilContribution)) := none
  StageContributions : Option (List (Option PersistableStageContribution)) := none
  StateLinePointContributions :
    Option (List (Option PersistableStateLinePointContribution)) := none
  StatePointContributions :
    Option (List (Option PersistableStatePointContribution)) := none
  TangentLine : Option Rat := none
deriving DecidableEq

/-- results/upliftvan. -/
structure UpliftVanResult where
  FactorOfSafety : Option Rat := none
  Id : Option String := none
  LeftCenter : Option PersistablePoint := none
  Points : Option (List (Option PersistablePoint)) := none
  RightCenter : Option PersistablePoint := none
  Slices : Option (List (Option PersistableSlice)) := none
  TangentLine : Option Rat := none
deriving DecidableEq

/-- The `DStabilityResult` union of the nine result document kinds. -/
inductive DStabilityResult where
  | upliftVan (r : UpliftVanResult)
  | upliftVanParticleSwarm (r : UpliftVanParticleSwarmResult)
  | upliftVanReliability (r : UpliftVanReliabilityResult)
  | spencerGeneticAlgorithm (r : SpencerGeneticAlgorithmResult)
  | spencerReliability (r : SpencerReliabilityResult)
  | spencer (r : SpencerResult)
  | bishopBruteForce (r : BishopBruteForceResult)
  | bishopReliability (r : BishopReliabilityResult)
  | bishop (r : BishopResult)
deriving DecidableEq

/-- One constructor per result-collection attribute of `DStabilityStructure`;
the values the source's `result_types_mapping` dict stores are references to
these attributes, so attribute identity (which underlying collection a route
aliases) is captured by equality on this type. -/
inductive ResultCollectionField where
  | uplift_van_results
  | uplift_van_particle_swarm_results
  | uplift_van_reliability_results
  | spencer_genetic_algorithm_results
  | spencer_reliability_results
  | spencer_results
  | bishop_bruteforce_results
  | bishop_reliability_results
  | bishop_results
deriving DecidableEq

/-- One row of `result_types_mapping`. -/
structure ResultTypesEntry where
  non_probabilistic : ResultCollectionField
  probabilistic : ResultCollectionField
deriving DecidableEq

/-- The `result_types_mapping` dict of
`DStabilityStructure.get_result_substructure`, row by row. -/
def result_types_mapping : AnalysisType → ResultTypesEntry
  | AnalysisType.UPLIFT_VAN =>
    { non_probabilistic := ResultCollectionField.uplift_van_results,
      probabilistic := ResultCollectionField.uplift_van_reliability_results }
  | AnalysisType.UPLIFT_VAN_PARTICLE_SWARM =>
    { non_probabilistic := ResultCollectionField.uplift_van_particle_swarm_results,
      probabilistic := ResultCollectionField.uplift_van_reliability_results }
  | AnalysisType.SPENCER_GENETIC =>
    { non_probabilistic := ResultCollectionField.spencer_genetic_algorithm_results,
      probabilistic := ResultCollectionField.spencer_reliability_results }
  | AnalysisType.SPENCER =>
    { non_probabilistic := ResultCollectionField.spencer_results,
      probabilistic := ResultCollectionField.spencer_reliability_results }
  | AnalysisType.BISHOP_BRUTE_FORCE =>
    { non_probabilistic := ResultCollectionField.bishop_bruteforce_results,
      probabilistic := ResultCollectionField.bishop_reliability_results }
  | AnalysisType.BISHOP =>
    { non_probabilistic := ResultCollectionField.bishop_results,
      probabilistic := ResultCollectionField.bishop_reliability_results }

/-- The result collection that `get_result_substructure` selects for the
given pair: the probabilistic column of the row for `PROBABILISTIC`, the
non-probabilistic column for every other calculation type. -/
def routeResultField (analysis_type : AnalysisType)
    (calculation_type : CalculationType) : ResultCollectionField :=
  if calculation_type = CalculationType.PROBABILISTIC then
    (result_types_mapping analysis_type).probabilistic
  else
    (result_types_mapping analysis_type).non_probabilistic

/-- The aggregate root (internal.py `DStabilityStructure`), with the
default value of every field as declared in the source. -/
structure DStabilityStructure where
  waternets : List Waternet := [{}]
  waternetcreatorsettings : List WaternetCreatorSettings := [{}]
  states : List State := [{}]
  statecorrelations : List StateCorrelation := [{}]
  stages : List Stage := [{}]
  soillayers : List SoilLayerCollection := [{}]
  soilcorrelation : SoilCorrelation := {}
  soils : SoilCollection := {}
  reinforcements : List Reinforcements := [{ Id := some "1" }]
  projectinfo : ProjectInfo
  nailproperties : NailProperties := {}
  loads : List Loads := [{}]
  decorations : List Decorations := [{}]
  calculationsettings : List CalculationSettings := [{}]
  geometries : List Geometry := [{}]
  uplift_van_results : List UpliftVanResult := []
  uplift_van_particle_swarm_results : List UpliftVanParticleSwarmResult := []
  uplift_van_reliability_results : List UpliftVanReliabilityResult := []
  spencer_genetic_algorithm_results : List SpencerGeneticAlgorithmResult := []
  spencer_reliability_results : List SpencerReliabilityResult := []
  spencer_results : List SpencerResult := []
  bishop_bruteforce_results : List BishopBruteForceResult := []
  bishop_reliability_results : List BishopReliabilityResult := []
  bishop_results : List BishopResult := []
deriving DecidableEq

/-- `DStabilityStructure()` with all defaults; `today` and `version` are the
environment inputs feeding the `ProjectInfo()` default. -/
def defaultDStabilityStructure (today : CalendarDate) (version : String) :
    DStabilityStructure :=
  { projectinfo := defaultProjectInfo today version }

/-- The contents of the result-collection attribute a route selects,
injected into the `DStabilityResult` union. -/
def DStabilityStructure.readResultField (s : DStabilityStructure) :
    ResultCollectionField → List DStabilityResult
  | ResultCollectionField.uplift_van_results =>
    s.uplift_van_results.map DStabilityResult.upliftVan
  | ResultCollectionField.uplift_van_particle_swarm_results =>
    s.uplift_van_particle_swarm_results.map DStabilityResult.upliftVanParticleSwarm
  | ResultCollectionField.uplift_van_reliability_results =>
    s.uplift_van_reliability_results.map DStabilityResult.upliftVanReliability
  | ResultCollectionField.spencer_genetic_algorithm_results =>
    s.spencer_genetic_algorithm_results.map DStabilityResult.spencerGeneticAlgorithm
  | ResultCollectionField.spencer_reliability_results =>
    s.spencer_reliability_results.map DStabilityResult.spencerReliability
  | ResultCollectionField.spencer_results =>
    s.spencer_results.map DStabilityResult.spencer
  | ResultCollectionField.bishop_bruteforce_results =>
    s.bishop_bruteforce_results.map DStabilityResult.bishopBruteForce
  | ResultCollectionField.bishop_reliability_results =>
    s.bishop_reliability_results.map DStabilityResult.bishopReliability
  | ResultCollectionField.bishop_results =>
    s.bishop_results.map DStabilityResult.bishop

/-- `DStabilityStructure.get_result_substructure`. -/
def DStabilityStructure.get_result_substructure (s : DStabilityStructure)
    (analysis_type : AnalysisType) (calculation_type : CalculationType) :
    List DStabilityResult :=
  s.readResultField (routeResultField analysis_type calculation_type)

/-- Python sequence indexing `l[i]`: a non-negative index is used directly,
a negative one counts from the end, and anything else raises IndexError
(rendered as `none`). -/
def pyGet {α : Type} (l : List α) (i : Int) : Option α :=
  if 0 ≤ i then l.get? i.toNat
  else if 0 ≤ i + l.length then l.get? (i + l.length).toNat
  else none

/-- `DStabilityStructure.has_stage`: `self.stages[stage_id]` under a
`try`, returning False exactly on IndexError. -/
def DStabilityStructure.has_stage (s : DStabilityStructure) (stage_id : Int) : Bool :=
  (pyGet s.stages stage_id).isSome

/-- `DStabilityStructure.has_result`: False when the stage is missing or
its `ResultId` is None, True otherwise. -/
def DStabilityStructure.has_result (s : DStabilityStructure) (stage_id : Int) : Bool :=
  match pyGet s.stages stage_id with
  | none => false
  | some stage => stage.ResultId.isSome

/-- One structured finding of the reference resolver: the stage index, the
foreign-key field name, and the unresolved identifier value. -/
structure ValidationFinding where
  stage_index : Nat
  field : String
  value : String
deriving DecidableEq

/-- One foreign-key check: a set field that matches no `Id` in the target
collection yields exactly one finding naming the stage index, the field and
the identifier; an unset field yields none. -/
def checkForeignKey (stage_index : Nat) ( field : String) (fk : Option String)
    (ids : List (Option String)) : List ValidationFinding :=
  match fk with
  | none => []
  | some v => if ids.contains (some v) then [] else [⟨stage_index, field, v⟩]

/-- Findings for one Stage: every foreign-key field resolved against the
corresponding substructure collection of the aggregate. -/
def stageFindings (s : DStabilityStructure) (i : Nat) (stage : Stage) :
    List ValidationFinding :=
  checkForeignKey i "CalculationSettingsId" stage.CalculationSettingsId
    (s.calculationsettings.map (fun c => c.Id)) ++
  checkForeignKey i "DecorationsId" stage.DecorationsId
    (s.decorations.map (fun c => c.Id)) ++
  checkForeignKey i "GeometryId" stage.GeometryId
    (s.geometries.map (fun c => c.Id)) ++
  checkForeignKey i "LoadsId" stage.LoadsId
    (s.loads.map (fun c => c.Id)) ++
  checkForeignKey i "ReinforcementsId" stage.ReinforcementsId
    (s.reinforcements.map (fun c => c.Id)) ++
  checkForeignKey i "SoilLayersId" stage.SoilLayersId
    (s.soillayers.map (fun c => c.Id)) ++
  checkForeignKey i "StateCorrelationsId" stage.StateCorrelationsId
    (s.statecorrelations.map (fun c => c.Id)) ++
  checkForeignKey i "StateId" stage.StateId
    (s.states.map (fun c => c.Id)) ++
  checkForeignKey i "WaternetCreatorSettingsId" stage.WaternetCreatorSettingsId
    (s.waternetcreatorsettings.map (fun c => c.Id)) ++
  checkForeignKey i "WaternetId" stage.WaternetId
    (s.waternets.map (fun c => c.Id))

/-- Findings for one Waternet: every reference line's bottom and top
head-line id, and the phreatic line id, resolved against the head lines of
the same waternet. -/
def waternetFindings (i : Nat) (w : Waternet) : List ValidationFinding :=
  (w.ReferenceLines.flatMap (fun rl =>
    (match rl.BottomHeadLineId with
     | none => []
     | some v => if w.has_head_line_id v then [] else
         [⟨i, "BottomHeadLineId", v⟩]) ++
    (match rl.TopHeadLineId with
     | none => []
     | some v => if w.has_head_line_id v then [] else
         [⟨i, "TopHeadLineId", v⟩]))) ++
  (match w.PhreaticLineId with
   | none => []
   | some v => if w.has_head_line_id v then [] else [⟨i, "PhreaticLineId", v⟩])

/-- Findings for one SoilLayerCollection: every `SoilId` resolved against the
shared soil catalog. -/
def soilLayerFindings (s : DStabilityStructure) (i : Nat)
    (slc : SoilLayerCollection) : List ValidationFinding :=
  ((slc.SoilLayers.getD []).flatMap (fun layer =>
    match layer with
    | none => []
    | some l =>
      match l.SoilId with
      | none => []
      | some v =>
        if s.soils.Soils.any (fun soil => soil.Id == v) then []
        else [⟨i, "SoilId", v⟩]))

/-- Modelled from the spec: dstability_validator.py (class
DStabilityValidator) is not under src.  Per the spec the resolver walks the
fully assembled Case and accumulates the complete set of integrity
violations — every Stage foreign key against its collection, every
intra-Waternet head-line reference, every SoilId against the shared soil
catalog — as data, never mutating the Case. -/
def resolverFindings (s : DStabilityStructure) : List ValidationFinding :=
  (s.stages.enum.flatMap (fun p => stageFindings s p.1 p.2)) ++
  (s.waternets.enum.flatMap (fun p => waternetFindings p.1 p.2)) ++
  (s.soillayers.enum.flatMap (fun p => soilLayerFindings s p.1 p.2))

/-- Modelled from the spec: the validator object returned by
`DStabilityStructure.validator`, bound to the Case it was created from. -/
structure DStabilityValidator where
  model : DStabilityStructure
deriving DecidableEq

/-- `DStabilityStructure.validator`: returns `DStabilityValidator(self)`. -/
def DStabilityStructure.validator (s : DStabilityStructure) : DStabilityValidator :=
  { model := s }

/-- Modelled from the spec: one run of the resolver produces the findings
report and hands back the (untouched) validator state, making any mutation
of the bound Case observable in the second component. -/
def DStabilityValidator.run (v : DStabilityValidator) :
    List ValidationFinding × DStabilityValidator :=
  (resolverFindings v.model, v)

end GEOLib

namespace DFoundations

/-- geolib/models/dfoundations/internal_soil.py SoilType. -/
inductive SoilType where
  | GRAVEL
  | SAND
  | LOAM
  | CLAY
  | PEAT
  | SANDYLOAM
deriving DecidableEq

inductive MaxConeResistType where
  | STANDARD
  | MANUAL
deriving DecidableEq

/-- The raw field values handed to the D-Foundations `Soil` constructor;
`confloat` / `constr` bounds are checked by `Soil.fieldErrors` below, and
construction (pydantic validation) succeeds only when no bound is violated. -/
structure Soil where
  name : String
  soilcolor : Int := 10871211
  soilsoiltype : SoilType := SoilType.SAND
  soilbelgiansoiltype : SoilType := SoilType.SAND
  soilgamdry : Rat := 20.00
  soilgamwet : Rat := 20.00
  soilinitialvoidratio : Rat := 0.001001
  soildiameterd50 : Rat := 0.20000
  soilminvoidratio : Rat := 0.400
  soilmaxvoidratio : Rat := 0.800
  soilcohesion : Rat := 30.00
  soilphi : Rat
  soilcu : Rat
  soilmaxconeresisttype : MaxConeResistType := MaxConeResistType.STANDARD
  soilmaxconeresist : Rat := 0.00
  soilusetension : Bool := true
  soilca : Rat := 0.0040000
  soilccindex : Rat := 0.1260000
deriving DecidableEq

/-- Field-level message for a violated lower bound. -/
def geError ( field bound : String) : String :=
  field ++ " must be greater than or equal to " ++ bound

/-- Field-level message for a violated upper bound. -/
def leError ( field bound : String) : String :=
  field ++ " must be less than or equal to " ++ bound

/-- The messages produced for one `confloat(ge=lo, le=hi)` field. -/
def rangeErrors ( field : String) (lo hi v : Rat) : List String :=
  (if v < lo then [geError field (toString lo)] else []) ++
  (if hi < v then [leError field (toString hi)] else [])

/-- All field-level validation errors of a D-Foundations soil, in field
declaration order: `constr(min_length=1, max_length=25)` on the name and the
declared `confloat` range of every numeric field. -/
def Soil.fieldErrors (s : Soil) : List String :=
  (if s.name.length < 1 ∨ 25 < s.name.length then
    ["name must have between 1 and 25 characters"] else []) ++
  rangeErrors "soilgamdry" 0 100 s.soilgamdry ++
  rangeErrors "soilgamwet" 0 100 s.soilgamwet ++
  rangeErrors "soilinitialvoidratio" 0 20 s.soilinitialvoidratio ++
  rangeErrors "soildiameterd50" 0 1000 s.soildiameterd50 ++
  rangeErrors "soilminvoidratio" 0 1 s.soilminvoidratio ++
  rangeErrors "soilmaxvoidratio" 0 1 s.soilmaxvoidratio ++
  rangeErrors "soilcohesion" 0 1000 s.soilcohesion ++
  rangeErrors "soilphi" 0 89 s.soilphi ++
  rangeErrors "soilcu" 0 1000 s.soilcu ++
  rangeErrors "soilmaxconeresist" 0 1000000 s.soilmaxconeresist ++
  rangeErrors "soilca" 0 10 s.soilca ++
  rangeErrors "soilccindex" 0 20 s.soilccindex

/-- Construction of a D-Foundations soil: pydantic validation rejects the
value set with its field-level errors before a `Soil` instance exists. -/
def Soil.construct (s : Soil) : Except (List String) Soil :=
  if s.fieldErrors.isEmpty then Except.ok s else Except.error s.fieldErrors

end DFoundations

open GEOLib

/-- A fixed calendar date standing in for the date at class-definition time. -/
def sampleDate : CalendarDate := { year := 2026, month := 10, day := 12 }

/-- A case populated with one spencer-reliability result, used to observe
which analysis types alias that collection. -/
def spencerReliabilityCase : DStabilityStructure :=
  { projectinfo := defaultProjectInfo sampleDate "1.0.0",
    spencer_reliability_results := [{ Id := some "17" }] }

/-- Claim C1 as stated is false: SPENCER and SPENCER_GENETIC route
probabilistic results through the same mapping entry
(`spencer_reliability_results`), so on a case holding one spencer
reliability result the two probabilistic routes return the same, non-empty
collection instead of two distinct ones. -/
theorem C1_claim_counterexample :
    routeResultField AnalysisType.SPENCER CalculationType.PROBABILISTIC =
      routeResultField AnalysisType.SPENCER_GENETIC CalculationType.PROBABILISTIC
    ∧ spencerReliabilityCase.get_result_substructure AnalysisType.SPENCER
        CalculationType.PROBABILISTIC =
      spencerReliabilityCase.get_result_substructure AnalysisType.SPENCER_GENETIC
        CalculationType.PROBABILISTIC
    ∧ spencerReliabilityCase.get_result_substructure AnalysisType.SPENCER_GENETIC
        CalculationType.PROBABILISTIC ≠ [] := by
  refine ⟨rfl, rfl, ?_⟩
  intro h
  simp [DStabilityStructure.get_result_substructure, routeResultField,
    result_types_mapping, DStabilityStructure.readResultField,
    spencerReliabilityCase] at h

/-- Claim C1 amended: for every case, SPENCER and SPENCER_GENETIC route
probabilistic results to one shared spencer-reliability collection (the
same `spencer_reliability_results` attribute), while their
non-probabilistic collections stay distinct. -/
theorem C1_spencer_probabilistic_shared (s : DStabilityStructure) :
    s.get_result_substructure AnalysisType.SPENCER CalculationType.PROBABILISTIC =
      s.get_result_substructure AnalysisType.SPENCER_GENETIC CalculationType.PROBABILISTIC
    ∧ routeResultField AnalysisType.SPENCER CalculationType.PROBABILISTIC =
        ResultCollectionField.spencer_reliability_results
    ∧ routeResultField AnalysisType.SPENCER_GENETIC CalculationType.PROBABILISTIC =
        ResultCollectionField.spencer_reliability_results
    ∧ routeResultField AnalysisType.SPENCER CalculationType.DETERMINISTIC ≠
        routeResultField AnalysisType.SPENCER_GENETIC CalculationType.DETERMINISTIC :=
  ⟨rfl, rfl, rfl, by decide⟩

/-- Claim C2: UPLIFT_VAN and UPLIFT_VAN_PARTICLE_SWARM share the
uplift-van reliability collection for probabilistic results; the routing is
total (every pair goes through the mapping row for its analysis type), and
DESIGN, DETERMINISTIC and MEAN all select the analysis type's
non-probabilistic collection. -/
theorem C2_uplift_van_shared_and_routing_total (s : DStabilityStructure) :
    s.get_result_substructure AnalysisType.UPLIFT_VAN CalculationType.PROBABILISTIC =
      s.get_result_substructure AnalysisType.UPLIFT_VAN_PARTICLE_SWARM
        CalculationType.PROBABILISTIC
    ∧ routeResultField AnalysisType.UPLIFT_VAN CalculationType.PROBABILISTIC =
        ResultCollectionField.uplift_van_reliability_results
    ∧ routeResultField AnalysisType.UPLIFT_VAN_PARTICLE_SWARM
        CalculationType.PROBABILISTIC =
        ResultCollectionField.uplift_van_reliability_results
    ∧ (∀ a c, s.get_result_substructure a c =
        s.readResultField (routeResultField a c))
    ∧ (∀ a, routeResultField a CalculationType.DESIGN =
              (result_types_mapping a).non_probabilistic
          ∧ routeResultField a CalculationType.DETERMINISTIC =
              (result_types_mapping a).non_probabilistic
          ∧ routeResultField a CalculationType.MEAN =
              (result_types_mapping a).non_probabilistic) :=
  ⟨rfl, rfl, rfl, fun _ _ => rfl, fun a => by cases a <;> exact ⟨rfl, rfl, rfl⟩⟩

/-- A persisted circle with center (1.0, 2.0) and radius 3.0. -/
def circle123 : PersistableCircle :=
  { Center := some { X := some 1.0, Z := some 2.0 }, Radius := some 3.0 }

/-- Claim C5: on a Bishop result whose Circle is unset the condensation
operation fails with the condensation error, and with Circle set to center
(1.0, 2.0) and radius 3.0 it returns the summary x=1.0, z=2.0, radius=3.0
(whatever the other fields of the document are). -/
theorem C5_bishop_slipcircle_condensation (r : BishopResult) :
    (r.Circle = none →
      r.get_slipcircle_output =
        Except.error ("Slipcircle not available for BishopResult with id " ++ pyStr r.Id))
    ∧ ({ r with Circle := some circle123 } : BishopResult).get_slipcircle_output =
        Except.ok { x := 1.0, z := 2.0, radius := 3.0 } := by
  constructor
  · intro h
    simp [BishopResult.get_slipcircle_output, h]
  · rfl

/-- Witness for C5 at the empty Bishop result document. -/
theorem C5_bishop_slipcircle_condensation_witness :
    ({} : BishopResult).get_slipcircle_output =
      Except.error ("Slipcircle not available for BishopResult with id " ++ pyStr none) :=
  (C5_bishop_slipcircle_condensation {}).1 rfl

/-- Claim C6 as stated is false: the default case's shared soil catalog is
pre-seeded with ten reference soils (Ids 2 through 11), not eleven. -/
theorem C6_claim_counterexample :
    (defaultDStabilityStructure sampleDate "1.0.0").soils.Soils.length = 10
    ∧ (10 : Nat) ≠ 11 :=
  ⟨rfl, by decide⟩

/-- Claim C6 amended: a case constructed from defaults has exactly one
stage, every per-stage substructure sequence of length one, and its shared
soil catalog pre-seeded with ten reference soils. -/
theorem C6_default_case_shape (today : CalendarDate) (version : String) :
    (defaultDStabilityStructure today version).stages.length = 1
    ∧ (defaultDStabilityStructure today version).waternets.length = 1
    ∧ (defaultDStabilityStructure today version).waternetcreatorsettings.length = 1
    ∧ (defaultDStabilityStructure today version).states.length = 1
    ∧ (defaultDStabilityStructure today version).statecorrelations.length = 1
    ∧ (defaultDStabilityStructure today version).soillayers.length = 1
    ∧ (defaultDStabilityStructure today version).reinforcements.length = 1
    ∧ (defaultDStabilityStructure today version).loads.length = 1
    ∧ (defaultDStabilityStructure today version).decorations.length = 1
    ∧ (defaultDStabilityStructure today version).calculationsettings.length = 1
    ∧ (defaultDStabilityStructure today version).geometries.length = 1
    ∧ (defaultDStabilityStructure today version).soils.Soils.length = 10 :=
  ⟨rfl, rfl, rfl, rfl, rfl, rfl, rfl, rfl, rfl, rfl, rfl, rfl⟩

/-- Claim C9: the resolver bound to a case never mutates it, and running it
twice on the unmodified case yields identical finding reports. -/
theorem C9_resolver_pure_and_idempotent (s : DStabilityStructure) :
    (s.validator.run.2 = s.validator)
    ∧ (s.validator.run.2.model = s)
    ∧ (s.validator.run.1 = s.validator.run.2.run.1)
    ∧ (s.validator.run.1.length = s.validator.run.2.run.1.length) :=
  ⟨rfl, rfl, rfl, rfl⟩

/-- Claim C3: `add_reference_line` succeeds when both head-line ids resolve
(appending exactly one fully-built record), fails with a lookup error naming
the missing bottom id when the bottom id is unknown, fails with a lookup
error naming the missing top id when only the top id is unknown, and a
failed call never returns an updated waternet (the ReferenceLines sequence
is unchanged: in this state-passing embedding an error carries no new
state, mirroring that the source raises before appending). -/
theorem C3_add_reference_line_fail_fast (w : Waternet)
    (rid label notes : String) (points : List Point) (bottom top : String) :
    (w.has_head_line_id bottom = true → w.has_head_line_id top = true →
      ∃ rl : PersistableReferenceLine,
        w.add_reference_line rid label notes points bottom top =
          Except.ok ({ w with ReferenceLines := w.ReferenceLines ++ [rl] }, rl)
        ∧ rl.BottomHeadLineId = some bottom
        ∧ rl.TopHeadLineId = some top
        ∧ (w.ReferenceLines ++ [rl]).length = w.ReferenceLines.length + 1)
    ∧ (w.has_head_line_id bottom = false →
        w.add_reference_line rid label notes points bottom top =
          Except.error ("Unknown headline id " ++ bottom ++ " for bottom_head_line_id"))
    ∧ (w.has_head_line_id bottom = true → w.has_head_line_id top = false →
        w.add_reference_line rid label notes points bottom top =
          Except.error ("Unknown headline id " ++ top ++ " for top_head_line_id"))
    ∧ ((w.has_head_line_id bottom = false ∨ w.has_head_line_id top = false) →
        ∀ out : Waternet × PersistableReferenceLine,
          w.add_reference_line rid label notes points bottom top ≠ Except.ok out) := by
  refine ⟨?_, ?_, ?_, ?_⟩
  · intro hb ht
    refine ⟨{ Id := some rid, Label := some label, Notes := some notes,
              Points := some (points.map (fun p => some { X := some p.x, Z := some p.z })),
              BottomHeadLineId := some bottom, TopHeadLineId := some top },
            ?_, rfl, rfl, by simp⟩
    simp [Waternet.add_reference_line, hb, ht]
  · intro hb
    simp [Waternet.add_reference_line, hb]
  · intro hb ht
    simp [Waternet.add_reference_line, hb, ht]
  · intro h out
    rcases h with h | h
    · simp [Waternet.add_reference_line, h]
    · by_cases hb : w.has_head_line_id bottom
      · simp [Waternet.add_reference_line, hb, h]
      · simp [Waternet.add_reference_line, hb]

/-- A waternet holding a single head line HL1 (the phreatic line). -/
def waternetHL1 : Waternet :=
  (({} : Waternet).add_head_line "HL1" "phreatic" "" [{ x := 0, z := 0 }] true).1

/-- Witness for C3: on `waternetHL1`, adding a reference line between HL1
and HL1 succeeds, while a reference to the unknown head line HL404 fails
with the lookup error naming HL404 and yields no updated waternet. -/
theorem C3_add_reference_line_fail_fast_witness :
    (∃ rl : PersistableReferenceLine,
      waternetHL1.add_reference_line "RL1" "ref" "" [] "HL1" "HL1" =
        Except.ok ({ waternetHL1 with
          ReferenceLines := waternetHL1.ReferenceLines ++ [rl] }, rl)
      ∧ rl.BottomHeadLineId = some "HL1"
      ∧ rl.TopHeadLineId = some "HL1"
      ∧ (waternetHL1.ReferenceLines ++ [rl]).length =
          waternetHL1.ReferenceLines.length + 1)
    ∧ waternetHL1.add_reference_line "RL1" "ref" "" [] "HL404" "HL1" =
        Except.error ("Unknown headline id " ++ "HL404" ++ " for bottom_head_line_id") :=
  ⟨(C3_add_reference_line_fail_fast waternetHL1 "RL1" "ref" "" [] "HL1" "HL1").1
      (by decide) (by decide),
   (C3_add_reference_line_fail_fast waternetHL1 "RL1" "ref" "" [] "HL404" "HL1").2.1
      (by decide)⟩

/-- `l.get? n` holds a value exactly for indices below the length. -/
theorem get?_isSome_iff_lt {α : Type} (l : List α) (n : Nat) :
    (l.get? n).isSome = true ↔ n < l.length := by
  constructor
  · intro h
    exact List.get?_eq_some.mp (Option.isSome_iff_exists.mp h).choose_spec |>.choose
  · intro h
    rw [List.get?_eq_get h]
    rfl

/-- Claim C8: for a valid stage index, `has_result` is false exactly when
that stage's ResultId is null and true when it is non-null ( `has_result`
is a pure function of the case, so it has no side effects). -/
theorem C8_has_result_result_id (s : DStabilityStructure) (i : Nat)
    (h : i < s.stages.length) :
    s.has_result (i : Int) = (s.stages.get ⟨i, h⟩).ResultId.isSome
    ∧ ((s.stages.get ⟨i, h⟩).ResultId = none → s.has_result (i : Int) = false)
    ∧ ((s.stages.get ⟨i, h⟩).ResultId ≠ none → s.has_result (i : Int) = true) := by
  have hg : pyGet s.stages (i : Int) = some (s.stages.get ⟨i, h⟩) := by
    simp [pyGet, List.get?_eq_get h]
  refine ⟨?_, ?_, ?_⟩
  · simp [DStabilityStructure.has_result, hg]
  · intro hr
    simp [DStabilityStructure.has_result, hg]
    exact hr
  · intro hr
    simp [DStabilityStructure.has_result, hg, Option.isSome_iff_ne_none]
    exact hr

/-- A case with two stages: the first holds a result id, the second none. -/
def twoStageCase : DStabilityStructure :=
  { projectinfo := defaultProjectInfo sampleDate "1.0.0",
    stages := [{ Id := some "42", ResultId := some "R1" }, { Id := some "43" }] }

/-- Witness for C8 on the two-stage case: stage 0 has a result, stage 1
does not. -/
theorem C8_has_result_result_id_witness :
    twoStageCase.has_result (0 : Nat) = true
    ∧ twoStageCase.has_result (1 : Nat) = false :=
  ⟨(C8_has_result_result_id twoStageCase 0 (by decide)).2.2 (by decide),
   (C8_has_result_result_id twoStageCase 1 (by decide)).2.1 (by decide)⟩

/-- Claim C10: `has_stage` never raises; it returns true exactly for the
integer indices in [-len(stages), len(stages)) — Python negative indexing
counts from the end — and in particular `has_stage(-1)` is true whenever the
case has at least one stage. -/
theorem C10_has_stage_negative_indexing (s : DStabilityStructure) (i : Int) :
    (s.has_stage i = true ↔
      -(s.stages.length : Int) ≤ i ∧ i < (s.stages.length : Int))
    ∧ (0 < s.stages.length → s.has_stage (-1) = true) := by
  constructor
  · by_cases h0 : 0 ≤ i
    · simp only [DStabilityStructure.has_stage, pyGet, if_pos h0,
        get?_isSome_iff_lt]
      omega
    · by_cases h1 : 0 ≤ i + s.stages.length
      · simp only [DStabilityStructure.has_stage, pyGet, if_neg h0, if_pos h1,
          get?_isSome_iff_lt]
        omega
      · simp only [DStabilityStructure.has_stage, pyGet, if_neg h0, if_neg h1,
          Option.isSome_none]
        constructor
        · intro hh
          exact absurd hh (by simp)
        · intro hh
          omega
  · intro h
    have h0 : ¬ (0 : Int) ≤ -1 := by omega
    have h1 : (0 : Int) ≤ -1 + s.stages.length := by omega
    simp only [DStabilityStructure.has_stage, pyGet, if_neg h0, if_pos h1,
      get?_isSome_iff_lt]
    omega

/-- Witness for C10 on the two-stage case: index -1 (and -2) are accepted,
index -3 is not. -/
theorem C10_has_stage_negative_indexing_witness :
    twoStageCase.has_stage (-1) = true
    ∧ twoStageCase.has_stage (-2) = true
    ∧ twoStageCase.has_stage 2 = false :=
  ⟨(C10_has_stage_negative_indexing twoStageCase 0).2 (by decide),
   (C10_has_stage_negative_indexing twoStageCase (-2)).1.mpr (by decide),
   by
    have h := (C10_has_stage_negative_indexing twoStageCase 2).1
    revert h
    decide⟩

/-- Appending a matching element to a list with no match makes `find?`
return exactly that element. -/
theorem find?_append_right_of_any_eq_false {α : Type} (l : List α)
    (p : α → Bool) (h : l.any p = false) (x : α) (hx : p x = true) :
    (l ++ [x]).find? p = some x := by
  induction l with
  | nil => simp [List.find?, hx]
  | cons a as ih =>
    simp only [List.any_cons, Bool.or_eq_false_iff] at h
    simp only [List.cons_append, List.find?_cons, h.1, ih h.2]

/-- The engineering-facing soil of the spec's round-trip test: only code
and cohesion supplied. -/
def soilX : Soil := { code := some "X", cohesion := some 12.5 }

/-- The persisted record `add_soil` builds for `soilX`: cohesion overridden,
every other field at the `PersistableSoil` default. -/
def persistedSoilX : PersistableSoil := { Code := "X", Cohesion := 12.5 }

/-- The soil `get_soil "X"` exports after `add_soil soilX`: every field set,
cohesion 12.5, the rest the persisted defaults. -/
def expectedSoilX : Soil :=
  { code := some "X",
    cohesion := some 12.5,
    cohesion_and_friction_angle_correlated := some false,
    cohesion_stochastic_parameter := some {},
    dilatancy := some 0.0,
    dilatancy_stochastic_parameter := some {},
    friction_angle := some 0.0,
    friction_angle_stochastic_parameter := some {},
    id := some "",
    is_probabilistic := some false,
    name := some "",
    shear_strength_model_type_above_phreatic_level :=
      some ShearStrengthModelTypePhreaticLevel.C_PHI,
    shear_strength_model_type_below_phreatic_level :=
      some ShearStrengthModelTypePhreaticLevel.SU,
    shear_strength_ratio := some 0.0,
    shear_strength_ratio_and_shear_strength_exponent_correlated := some false,
    shear_strength_ratio_stochastic_parameter := some {},
    strength_increase_exponent := some 1.0,
    strength_increase_exponent_stochastic_parameter := some {},
    volumetric_weight_above_phreatic_level := some 0.0,
    volumetric_weight_below_phreatic_level := some 0.0 }

/-- A soil collection already holding a soil with code X and cohesion 999. -/
def collectionWithX : SoilCollection :=
  { ContentVersion := none, Soils := [{ Code := "X", Cohesion := 999 }] }

/-- Claim C4 as stated (for every Case) is false: on a case whose soil
collection already holds a soil with code X (cohesion 999), `add_soil`
appends the new record after it, so `get_soil "X"` finds the pre-existing
soil and reports cohesion 999, not 12.5. -/
theorem C4_claim_counterexample :
    Except.map (fun s => s.cohesion) ((collectionWithX.add_soil soilX).1.get_soil "X") =
      Except.ok (some (999 : Rat))
    ∧ some (999 : Rat) ≠ some (12.5 : Rat) :=
  ⟨rfl, by norm_num⟩

/-- Claim C4 amended: on every Case whose soil collection does not already
contain a soil with code X, `add_soil soilX` followed by `get_soil "X"`
returns the soil with cohesion 12.5 and every other field equal to the
persisted `PersistableSoil` defaults — the partial merge on add followed by
the export mapping is lossless for the fields actually set. -/
theorem C4_add_get_soil_round_trip (sc : SoilCollection)
    (h : sc.has_soilcode "X" = false) :
    (sc.add_soil soilX).1.get_soil "X" = Except.ok expectedSoilX := by
  have hsoils : (sc.add_soil soilX).1.Soils = sc.Soils ++ [persistedSoilX] := rfl
  have hfind : ((sc.add_soil soilX).1.Soils).find? (fun p => p.Code == "X") =
      some persistedSoilX := by
    rw [hsoils]
    exact find?_append_right_of_any_eq_false sc.Soils _ h persistedSoilX rfl
  simp only [SoilCollection.get_soil, hfind]
  rfl

/-- Witness for C4 at the default (freshly constructed) soil collection,
which has no soil with code X among its ten reference soils. -/
theorem C4_add_get_soil_round_trip_witness :
    ({} : SoilCollection).has_soilcode "X" = false
    ∧ (({} : SoilCollection).add_soil soilX).1.get_soil "X" =
        Except.ok expectedSoilX :=
  ⟨by decide, C4_add_get_soil_round_trip {} (by decide)⟩

/-- A violated lower bound puts its message into `rangeErrors`. -/
theorem mem_rangeErrors_of_lt_lo ( field : String) (lo hi v : Rat) (h : v < lo) :
    DFoundations.geError field (toString lo) ∈ DFoundations.rangeErrors field lo hi v := by
  simp [DFoundations.rangeErrors, h]

/-- A violated upper bound puts its message into `rangeErrors`. -/
theorem mem_rangeErrors_of_hi_lt ( field : String) (lo hi v : Rat) (h : hi < v) :
    DFoundations.leError field (toString hi) ∈ DFoundations.rangeErrors field lo hi v := by
  simp [DFoundations.rangeErrors, h]

/-- Any field-level error makes D-Foundations soil construction fail with
the full error list. -/
theorem construct_error_of_mem_fieldErrors (s : DFoundations.Soil) (msg : String)
    (h : msg ∈ s.fieldErrors) :
    s.construct = Except.error s.fieldErrors := by
  have hne : s.fieldErrors ≠ [] := List.ne_nil_of_mem h
  have hempty : s.fieldErrors.isEmpty = false := by
    simp [List.isEmpty_iff, hne]
  simp [DFoundations.Soil.construct, hempty]

/-- Claim C7: constructing a D-Foundations soil with a friction angle
outside [0, 89] degrees, or a (minimum or maximum) void ratio outside
[0, 1], fails at construction with field-level validation errors that name
the offending field and the violated bound. -/
theorem C7_out_of_range_rejected (s : DFoundations.Soil) :
    ((s.soilphi < 0 ∨ 89 < s.soilphi) →
      s.construct = Except.error s.fieldErrors
      ∧ (DFoundations.geError "soilphi" (toString (0 : Rat)) ∈ s.fieldErrors
         ∨ DFoundations.leError "soilphi" (toString (89 : Rat)) ∈ s.fieldErrors))
    ∧ ((s.soilminvoidratio < 0 ∨ 1 < s.soilminvoidratio) →
      s.construct = Except.error s.fieldErrors
      ∧ (DFoundations.geError "soilminvoidratio" (toString (0 : Rat)) ∈ s.fieldErrors
         ∨ DFoundations.leError "soilminvoidratio" (toString (1 : Rat)) ∈ s.fieldErrors))
    ∧ ((s.soilmaxvoidratio < 0 ∨ 1 < s.soilmaxvoidratio) →
      s.construct = Except.error s.fieldErrors
      ∧ (DFoundations.geError "soilmaxvoidratio" (toString (0 : Rat)) ∈ s.fieldErrors
         ∨ DFoundations.leError "soilmaxvoidratio" (toString (1 : Rat)) ∈ s.fieldErrors)) := by
  refine ⟨?_, ?_, ?_⟩
  · rintro (h | h)
    · have hm := mem_rangeErrors_of_lt_lo "soilphi" 0 89 s.soilphi h
      have hmem : DFoundations.geError "soilphi" (toString (0 : Rat)) ∈ s.fieldErrors := by
        simp only [DFoundations.Soil.fieldErrors, List.mem_append]
        tauto
      exact ⟨construct_error_of_mem_fieldErrors s _ hmem, Or.inl hmem⟩
    · have hm := mem_rangeErrors_of_hi_lt "soilphi" 0 89 s.soilphi h
      have hmem : DFoundations.leError "soilphi" (toString (89 : Rat)) ∈ s.fieldErrors := by
        simp only [DFoundations.Soil.fieldErrors, List.mem_append]
        tauto
      exact ⟨construct_error_of_mem_fieldErrors s _ hmem, Or.inr hmem⟩
  · rintro (h | h)
    · have hm := mem_rangeErrors_of_lt_lo "soilminvoidratio" 0 1 s.soilminvoidratio h
      have hmem : DFoundations.geError "soilminvoidratio" (toString (0 : Rat)) ∈ s.fieldErrors := by
        simp only [DFoundations.Soil.fieldErrors, List.mem_append]
        tauto
      exact ⟨construct_error_of_mem_fieldErrors s _ hmem, Or.inl hmem⟩
    · have hm := mem_rangeErrors_of_hi_lt "soilminvoidratio" 0 1 s.soilminvoidratio h
      have hmem : DFoundations.leError "soilminvoidratio" (toString (1 : Rat)) ∈ s.fieldErrors := by
        simp only [DFoundations.Soil.fieldErrors, List.mem_append]
        tauto
      exact ⟨construct_error_of_mem_fieldErrors s _ hmem, Or.inr hmem⟩
  · rintro (h | h)
    · have hm := mem_rangeErrors_of_lt_lo "soilmaxvoidratio" 0 1 s.soilmaxvoidratio h
      have hmem : DFoundations.geError "soilmaxvoidratio" (toString (0 : Rat)) ∈ s.fieldErrors := by
        simp only [DFoundations.Soil.fieldErrors, List.mem_append]
        tauto
      exact ⟨construct_error_of_mem_fieldErrors s _ hmem, Or.inl hmem⟩
    · have hm := mem_rangeErrors_of_hi_lt "soilmaxvoidratio" 0 1 s.soilmaxvoidratio h
      have hmem : DFoundations.leError "soilmaxvoidratio" (toString (1 : Rat)) ∈ s.fieldErrors := by
        simp only [DFoundations.Soil.fieldErrors, List.mem_append]
        tauto
      exact ⟨construct_error_of_mem_fieldErrors s _ hmem, Or.inr hmem⟩

/-- A soil value with friction angle 90 (above 89) and both void ratios
out of [0, 1]. -/
def badSoil : DFoundations.Soil :=
  { name := "bad", soilphi := 90, soilcu := 0,
    soilminvoidratio := 2, soilmaxvoidratio := -1 }

/-- Witness for C7 at `badSoil`: construction is rejected with errors
naming soilphi, soilminvoidratio and soilmaxvoidratio. -/
theorem C7_out_of_range_rejected_witness :
    (badSoil.construct = Except.error badSoil.fieldErrors
      ∧ (DFoundations.geError "soilphi" (toString (0 : Rat)) ∈ badSoil.fieldErrors
         ∨ DFoundations.leError "soilphi" (toString (89 : Rat)) ∈ badSoil.fieldErrors))
    ∧ (badSoil.construct = Except.error badSoil.fieldErrors
      ∧ (DFoundations.geError "soilminvoidratio" (toString (0 : Rat)) ∈ badSoil.fieldErrors
         ∨ DFoundations.leError "soilminvoidratio" (toString (1 : Rat)) ∈ badSoil.fieldErrors))
    ∧ (badSoil.construct = Except.error badSoil.fieldErrors
      ∧ (DFoundations.geError "soilmaxvoidratio" (toString (0 : Rat)) ∈ badSoil.fieldErrors
         ∨ DFoundations.leError "soilmaxvoidratio" (toString (1 : Rat)) ∈ badSoil.fieldErrors)) :=
  ⟨(C7_out_of_range_rejected badSoil).1 (Or.inr (by decide)),
   (C7_out_of_range_rejected badSoil).2.1 (Or.inr (by decide)),
   (C7_out_of_range_rejected badSoil).2.2 (Or.inl (by decide))⟩
